import Mathlib

/-!
Shallow embedding of the Pathfinder mesh debugger
(`src/demo/client/src/mesh-debugger.ts`).

The renderer is modelled as a pure function from its inputs (mesh buffers,
overlay toggles, camera, canvas size, device pixel ratio) to the list of
canvas-2D drawing-surface operations it emits, in emission order.  Buffer
coordinates live in an arbitrary field `K`; concrete evaluations
instantiate `K := ℚ` and the trigonometric development instantiates
`K := ℝ`.  The values of `Math.PI`, `Math.cos(NORMAL_ARROWHEAD_ANGLE)` and
`Math.sin(NORMAL_ARROWHEAD_ANGLE)` are threaded through a small environment
record so that the embedding stays computable.
-/

namespace MeshDebugger

/-- One canvas-2D drawing-surface operation, as issued by the debugger.
Constructors mirror the `CanvasRenderingContext2D` calls the source makes:
path construction, stroking/filling, state save/restore and the style,
dash, font and line-width assignments. -/
inductive DrawOp (K : Type) where
  | clearRect (x y w h : K)
  | save
  | restore
  | translate (x y : K)
  | scale (x y : K)
  | setFont (font : String)
  | setLineWidth (w : K)
  | setStrokeStyle (style : String)
  | setFillStyle (style : String)
  | setLineDash (dashOn dashOff : K)
  | beginPath
  | moveTo (x y : K)
  | lineTo (x y : K)
  | quadraticCurveTo (cpx cpy x y : K)
  | arc (x y radius startAngle endAngle : K)
  | stroke
  | fill
  deriving DecidableEq

/-- The two normal-arrow kinds of the source (`type NormalType`). -/
inductive NormalType where
  | edge
  | bVertex
  deriving DecidableEq

section Defs

variable {K : Type} [Field K]

/-- Numeric environment: the values the source obtains from `Math`.
`pi` is `Math.PI`; `cosArrow` and `sinArrow` are
`Math.cos(NORMAL_ARROWHEAD_ANGLE)` and `Math.sin(NORMAL_ARROWHEAD_ANGLE)`. -/
structure NumEnv (K : Type) where
  pi : K
  cosArrow : K
  sinArrow : K
  deriving DecidableEq

/-- `POINT_RADIUS = 2.0` from the source. -/
def POINT_RADIUS : K := 2

/-- `SEGMENT_POINT_RADIUS = 3.0` from the source. -/
def SEGMENT_POINT_RADIUS : K := 3

/-- `SEGMENT_STROKE_WIDTH = 1.0` from the source. -/
def SEGMENT_STROKE_WIDTH : K := 1

/-- `SEGMENT_CONTROL_POINT_STROKE_WIDTH = 1.0` from the source. -/
def SEGMENT_CONTROL_POINT_STROKE_WIDTH : K := 1

/-- `NORMAL_ARROWHEAD_LENGTH = 4.0` from the source. -/
def NORMAL_ARROWHEAD_LENGTH : K := 4

/-- `NORMAL_LENGTHS = { bVertex: 10.0, edge: 14.0 }` from the source. -/
def NORMAL_LENGTHS : NormalType → K
  | NormalType.edge => 14
  | NormalType.bVertex => 10

/-- `SEGMENT_POINT_FILL_STYLE` from the source. -/
def SEGMENT_POINT_FILL_STYLE : String := "rgb(0, 0, 128)"

/-- `LIGHT_STROKE_STYLE` from the source. -/
def LIGHT_STROKE_STYLE : String := "rgb(192, 192, 192)"

/-- `LINE_STROKE_STYLE` from the source: the "line" edge color. -/
def LINE_STROKE_STYLE : String := "rgb(0, 128, 0)"

/-- `CURVE_STROKE_STYLE` from the source: the "curve" edge color. -/
def CURVE_STROKE_STYLE : String := "rgb(128, 0, 0)"

/-- `SEGMENT_LINE_STROKE_STYLE` from the source. -/
def SEGMENT_LINE_STROKE_STYLE : String := "rgb(128, 192, 128)"

/-- `SEGMENT_CONTROL_POINT_FILL_STYLE` from the source. -/
def SEGMENT_CONTROL_POINT_FILL_STYLE : String := "rgb(255, 255, 255)"

/-- `SEGMENT_CONTROL_POINT_STROKE_STYLE` from the source. -/
def SEGMENT_CONTROL_POINT_STROKE_STYLE : String := "rgb(0, 0, 128)"

/-- `SEGMENT_CONTROL_POINT_HULL_STROKE_STYLE` from the source. -/
def SEGMENT_CONTROL_POINT_HULL_STROKE_STYLE : String := "rgba(128, 128, 128, 0.5)"

/-- `NORMAL_STROKE_STYLES = { bVertex: '#e6aa00', edge: '#cc5500' }`. -/
def NORMAL_STROKE_STYLES : NormalType → String
  | NormalType.edge => "#cc5500"
  | NormalType.bVertex => "#e6aa00"

/-- The four overlay toggles of `MeshDebuggerView` (fields at lines 229-232). -/
structure OverlayState where
  drawControl : Bool
  drawNormals : Bool
  drawVertices : Bool
  drawSegments : Bool
  deriving DecidableEq

/-- Field initializers of `MeshDebuggerView`: control, normals and vertices
default to `true`, segments to `false`. -/
def initialOverlayState : OverlayState :=
  { drawControl := true, drawNormals := true, drawVertices := true, drawSegments := false }

/-- `MeshDebuggerView.onKeyPress`.  Returns the overlay state after the event
together with whether `setDirty()` was called.  In the source `setDirty()`
stands on line 369, outside the `if`/`else if` chain, so it runs on every
key press. -/
def onKeyPress (key : String) (s : OverlayState) : OverlayState × Bool :=
  let s :=
    if key = "c" then
      { s with drawControl := !s.drawControl }
    else if key = "n" then
      { s with drawNormals := !s.drawNormals }
    else if key = "v" then
      { s with drawVertices := !s.drawVertices }
    else if key = "r" then
      { s with drawControl := true, drawNormals := true, drawVertices := true }
    else
      s
  (s, true)

/-- The mesh buffers `redraw` consumes (`PathfinderMeshData` fields used by
the debugger).  Flat `Float32Array`s are modelled as lists of `K`; reads use
`List.getD _ _ 0`, which agrees with the source on every in-bounds index. -/
structure Mesh (K : Type) where
  bQuadVertexPositions : List K
  bQuadVertexPositionCount : Nat
  stencilSegments : List K
  stencilNormals : List K
  stencilSegmentCount : Nat
  deriving DecidableEq

/-- The camera fields `redraw` reads (`OrthographicCamera.translation`,
`OrthographicCamera.scale`). -/
structure Camera (K : Type) where
  translationX : K
  translationY : K
  scale : K
  deriving DecidableEq

/-- The point that `getPosition` reads from `bQuadVertexPositions`:
components `(bQuadIndex * 6 + vertexIndex) * 2 + 0` and `+ 1`. -/
def readPoint (positions : List K) (bQuadIndex vertexIndex : Nat) : K × K :=
  (positions.getD ((bQuadIndex * 6 + vertexIndex) * 2 + 0) 0,
   positions.getD ((bQuadIndex * 6 + vertexIndex) * 2 + 1) 0)

/-- `getPosition` from the source (lines 373-379).  Its TypeScript callers
compare the result against `null`, so the embedding gives it an `Option`
result type; the source body returns `glmatrix.vec2.clone([...])`, which is
never `null`, so the result is always `some`. -/
def getPosition (positions : List K) (bQuadIndex vertexIndex : Nat) : Option (K × K) :=
  some (readPoint positions bQuadIndex vertexIndex)

/-- `drawVertexIfNecessary`: one filled corner dot at the Y-flipped point. -/
def drawVertexIfNecessary (E : NumEnv K) (position : K × K) (invScaleFactor : K) :
    List (DrawOp K) :=
  [DrawOp.beginPath,
   DrawOp.moveTo position.1 (-position.2),
   DrawOp.arc position.1 (-position.2) (POINT_RADIUS * invScaleFactor) 0 (2 * E.pi),
   DrawOp.fill]

/-- `drawSegmentVertex`: one filled segment endpoint marker. -/
def drawSegmentVertex (E : NumEnv K) (position : K × K) (invScaleFactor : K) :
    List (DrawOp K) :=
  [DrawOp.save,
   DrawOp.setFillStyle SEGMENT_POINT_FILL_STYLE,
   DrawOp.setLineWidth (invScaleFactor * SEGMENT_STROKE_WIDTH),
   DrawOp.beginPath,
   DrawOp.arc position.1 (-position.2) (SEGMENT_POINT_RADIUS * invScaleFactor) 0 (2 * E.pi),
   DrawOp.fill,
   DrawOp.restore]

/-- `drawSegmentControlPoint`: one filled and stroked control-point marker. -/
def drawSegmentControlPoint (E : NumEnv K) (position : K × K) (invScaleFactor : K) :
    List (DrawOp K) :=
  [DrawOp.save,
   DrawOp.setStrokeStyle SEGMENT_CONTROL_POINT_STROKE_STYLE,
   DrawOp.setFillStyle SEGMENT_CONTROL_POINT_FILL_STYLE,
   DrawOp.setLineWidth (invScaleFactor * SEGMENT_CONTROL_POINT_STROKE_WIDTH),
   DrawOp.beginPath,
   DrawOp.arc position.1 (-position.2) (SEGMENT_POINT_RADIUS * invScaleFactor) 0 (2 * E.pi),
   DrawOp.fill,
   DrawOp.stroke,
   DrawOp.restore]

/-- `drawNormal` (lines 525-557): shaft plus two arrowhead wings.  The first
`stroke` closes a path holding the shaft and the first wing; the second
`stroke` closes a path holding only the second wing. -/
def drawNormal (E : NumEnv K) (position normalVector : K × K) (invScaleFactor : K)
    (normalType : NormalType) : List (DrawOp K) :=
  let length := invScaleFactor * NORMAL_LENGTHS normalType
  let arrowheadLength := invScaleFactor * NORMAL_ARROWHEAD_LENGTH
  let endpoint : K × K := (position.1 + length * normalVector.1,
                           -position.2 + length * -normalVector.2)
  [DrawOp.save,
   DrawOp.setStrokeStyle (NORMAL_STROKE_STYLES normalType),
   DrawOp.beginPath,
   DrawOp.moveTo position.1 (-position.2),
   DrawOp.lineTo endpoint.1 endpoint.2,
   DrawOp.lineTo
     (endpoint.1 + arrowheadLength *
       (E.cosArrow * normalVector.1 + E.sinArrow * normalVector.2))
     (endpoint.2 + arrowheadLength *
       (E.sinArrow * normalVector.1 - E.cosArrow * normalVector.2)),
   DrawOp.stroke,
   DrawOp.beginPath,
   DrawOp.moveTo endpoint.1 endpoint.2,
   DrawOp.lineTo
     (endpoint.1 + arrowheadLength *
       (E.cosArrow * normalVector.1 - E.sinArrow * normalVector.2))
     (endpoint.2 - arrowheadLength *
       (E.cosArrow * normalVector.2 + E.sinArrow * normalVector.1)),
   DrawOp.stroke,
   DrawOp.restore]

/-- `drawSegmentVertices` (lines 400-480): the per-segment loop over the
stencil-segment and stencil-normal buffers. -/
def drawSegmentVertices (E : NumEnv K) (segments normals : List K) (segmentCount : Nat)
    (endpointOffsets : List Nat) (controlPointOffset : Option Nat) (segmentSize : Nat)
    (invScaleFactor : K) (drawControl drawNormals drawSegments : Bool) :
    List (DrawOp K) :=
  (List.range segmentCount).flatMap fun segmentIndex =>
    let positionStartOffset := segmentSize * 2 * segmentIndex
    let normalStartOffset := segmentSize * 2 * segmentIndex
    let e0 := endpointOffsets.getD 0 0
    let e1 := endpointOffsets.getD 1 0
    let position0 : K × K :=
      (segments.getD (positionStartOffset + e0 * 2 + 0) 0,
       segments.getD (positionStartOffset + e0 * 2 + 1) 0)
    let position1 : K × K :=
      (segments.getD (positionStartOffset + e1 * 2 + 0) 0,
       segments.getD (positionStartOffset + e1 * 2 + 1) 0)
    let controlPoint : Option (K × K) :=
      controlPointOffset.map fun c =>
        (segments.getD (positionStartOffset + c * 2 + 0) 0,
         segments.getD (positionStartOffset + c * 2 + 1) 0)
    let normal0 : K × K :=
      (normals.getD (normalStartOffset + e0 * 2 + 0) 0,
       normals.getD (normalStartOffset + e0 * 2 + 1) 0)
    let normal1 : K × K :=
      (normals.getD (normalStartOffset + e1 * 2 + 0) 0,
       normals.getD (normalStartOffset + e1 * 2 + 1) 0)
    let normalControlPoint : Option (K × K) :=
      controlPointOffset.map fun c =>
        (normals.getD (normalStartOffset + c * 2 + 0) 0,
         normals.getD (normalStartOffset + c * 2 + 1) 0)
    (if drawNormals then
        drawNormal E position0 normal0 invScaleFactor NormalType.edge ++
        drawNormal E position1 normal1 invScaleFactor NormalType.edge ++
        (match drawControl, controlPoint, normalControlPoint with
         | true, some cp, some ncp => drawNormal E cp ncp invScaleFactor NormalType.edge
         | _, _, _ => [])
      else []) ++
    drawSegmentVertex E position0 invScaleFactor ++
    drawSegmentVertex E position1 invScaleFactor ++
    (match drawControl, controlPoint with
     | true, some cp =>
        [DrawOp.save,
         DrawOp.setStrokeStyle SEGMENT_CONTROL_POINT_HULL_STROKE_STYLE,
         DrawOp.setLineDash (2 * invScaleFactor) (2 * invScaleFactor),
         DrawOp.beginPath,
         DrawOp.moveTo position0.1 (-position0.2),
         DrawOp.lineTo cp.1 (-cp.2),
         DrawOp.lineTo position1.1 (-position1.2),
         DrawOp.stroke,
         DrawOp.restore] ++
        drawSegmentControlPoint E cp invScaleFactor
     | _, _ => []) ++
    (if drawSegments then
        [DrawOp.save,
         DrawOp.setStrokeStyle SEGMENT_LINE_STROKE_STYLE,
         DrawOp.beginPath,
         DrawOp.moveTo position0.1 (-position0.2),
         DrawOp.lineTo position1.1 (-position1.2),
         DrawOp.stroke,
         DrawOp.restore]
      else [])

/-- Body of the `redraw` B-quad loop (lines 284-336): conditional corner
dots, the upper edge (curve or line), the right connecting stroke, the lower
edge (curve or line) and the left connecting stroke. -/
def bQuadOps (E : NumEnv K) (bQuadVertexPositions : List K) (drawVertices : Bool)
    (invScaleFactor : K) (bQuadIndex : Nat) : List (DrawOp K) :=
  let upperLeftPosition := readPoint bQuadVertexPositions bQuadIndex 0
  let upperControlPointPosition := getPosition bQuadVertexPositions bQuadIndex 1
  let upperRightPosition := readPoint bQuadVertexPositions bQuadIndex 2
  let lowerRightPosition := readPoint bQuadVertexPositions bQuadIndex 3
  let lowerControlPointPosition := getPosition bQuadVertexPositions bQuadIndex 4
  let lowerLeftPosition := readPoint bQuadVertexPositions bQuadIndex 5
  (if drawVertices then
      drawVertexIfNecessary E upperLeftPosition invScaleFactor ++
      drawVertexIfNecessary E upperRightPosition invScaleFactor ++
      drawVertexIfNecessary E lowerLeftPosition invScaleFactor ++
      drawVertexIfNecessary E lowerRightPosition invScaleFactor
    else []) ++
  ([DrawOp.beginPath, DrawOp.moveTo upperLeftPosition.1 (-upperLeftPosition.2)] ++
   (match upperControlPointPosition with
    | some cp =>
        [DrawOp.setStrokeStyle CURVE_STROKE_STYLE,
         DrawOp.quadraticCurveTo cp.1 (-cp.2) upperRightPosition.1 (-upperRightPosition.2)]
    | none =>
        [DrawOp.setStrokeStyle LINE_STROKE_STYLE,
         DrawOp.lineTo upperRightPosition.1 (-upperRightPosition.2)]) ++
   [DrawOp.stroke]) ++
  [DrawOp.setStrokeStyle LIGHT_STROKE_STYLE,
   DrawOp.beginPath,
   DrawOp.moveTo upperRightPosition.1 (-upperRightPosition.2),
   DrawOp.lineTo lowerRightPosition.1 (-lowerRightPosition.2),
   DrawOp.stroke] ++
  ([DrawOp.beginPath, DrawOp.moveTo lowerRightPosition.1 (-lowerRightPosition.2)] ++
   (match lowerControlPointPosition with
    | some cp =>
        [DrawOp.setStrokeStyle CURVE_STROKE_STYLE,
         DrawOp.quadraticCurveTo cp.1 (-cp.2) lowerLeftPosition.1 (-lowerLeftPosition.2)]
    | none =>
        [DrawOp.setStrokeStyle LINE_STROKE_STYLE,
         DrawOp.lineTo lowerLeftPosition.1 (-lowerLeftPosition.2)]) ++
   [DrawOp.stroke]) ++
  [DrawOp.setStrokeStyle LIGHT_STROKE_STYLE,
   DrawOp.beginPath,
   DrawOp.moveTo lowerLeftPosition.1 (-lowerLeftPosition.2),
   DrawOp.lineTo upperLeftPosition.1 (-upperLeftPosition.2),
   DrawOp.stroke]

/-- The fixed operations `redraw` issues before any primitive (lines
260-269): clear, save, camera translate and scale, font and line width. -/
def redrawPrologue (canvasWidth canvasHeight : K) (camera : Camera K)
    (invScaleFactor : K) : List (DrawOp K) :=
  [DrawOp.clearRect 0 0 canvasWidth canvasHeight,
   DrawOp.save,
   DrawOp.translate camera.translationX (canvasHeight - camera.translationY),
   DrawOp.scale camera.scale camera.scale,
   DrawOp.setFont "12px sans-serif",
   DrawOp.setLineWidth invScaleFactor]

/-- `MeshDebuggerView.redraw` (lines 252-354) as a trace of drawing-surface
operations.  `dpr` is `window.devicePixelRatio`.  With no mesh attached the
function returns before touching the canvas; otherwise it clears, sets up
the camera transform, draws every B-quad, then (only when `drawVertices` is
set, line 340) runs the segment pass with offsets `[0, 2]`, control slot `1`
and segment size `3`, and finally restores the context. -/
def redraw (E : NumEnv K) (canvasWidth canvasHeight : K) (camera : Camera K) (dpr : K)
    (st : OverlayState) (meshes : Option (Mesh K)) : List (DrawOp K) :=
  match meshes with
  | none => []
  | some meshes =>
      let invScaleFactor := dpr / camera.scale
      redrawPrologue canvasWidth canvasHeight camera invScaleFactor ++
      ((List.range meshes.bQuadVertexPositionCount).flatMap fun bQuadIndex =>
        bQuadOps E meshes.bQuadVertexPositions st.drawVertices invScaleFactor bQuadIndex) ++
      (if st.drawVertices then
          drawSegmentVertices E meshes.stencilSegments meshes.stencilNormals
            meshes.stencilSegmentCount [0, 2] (some 1) 3 invScaleFactor
            st.drawControl st.drawNormals st.drawSegments
        else []) ++
      [DrawOp.restore]

/-- The four corner dots a B-quad contributes when `drawVertices` is on
(`redraw` lines 291-296, in source order: upper left, upper right, lower
left, lower right). -/
def bQuadDotOps (E : NumEnv K) (bQuadVertexPositions : List K) (invScaleFactor : K)
    (bQuadIndex : Nat) : List (DrawOp K) :=
  drawVertexIfNecessary E (readPoint bQuadVertexPositions bQuadIndex 0) invScaleFactor ++
  drawVertexIfNecessary E (readPoint bQuadVertexPositions bQuadIndex 2) invScaleFactor ++
  drawVertexIfNecessary E (readPoint bQuadVertexPositions bQuadIndex 5) invScaleFactor ++
  drawVertexIfNecessary E (readPoint bQuadVertexPositions bQuadIndex 3) invScaleFactor

/-- The edge and connecting strokes of a B-quad: everything `bQuadOps` emits
apart from the corner dots. -/
def bQuadStrokeOps (E : NumEnv K) (bQuadVertexPositions : List K) (invScaleFactor : K)
    (bQuadIndex : Nat) : List (DrawOp K) :=
  bQuadOps E bQuadVertexPositions false invScaleFactor bQuadIndex

/-- Number of `stroke` operations in a trace. -/
def countStrokes (ops : List (DrawOp K)) : Nat :=
  ops.countP fun op =>
    match op with
    | DrawOp.stroke => true
    | _ => false

/-- Number of `quadraticCurveTo` operations in a trace. -/
def countQuadCurves (ops : List (DrawOp K)) : Nat :=
  ops.countP fun op =>
    match op with
    | DrawOp.quadraticCurveTo _ _ _ _ => true
    | _ => false

end Defs

section Fixtures

/-- Concrete numeric environment over `ℚ` for evaluation; the `Math` values
are opaque inputs to the renderer, so any rationals serve. -/
def testEnv : NumEnv ℚ := { pi := 3, cosArrow := -1, sinArrow := 0 }

/-- Concrete camera: no translation, unit scale. -/
def testCamera : Camera ℚ := { translationX := 0, translationY := 0, scale := 1 }

/-- Concrete mesh with zero B-quads and one stencil segment. -/
def testMesh : Mesh ℚ :=
  { bQuadVertexPositions := []
    bQuadVertexPositionCount := 0
    stencilSegments := [1, 2, 3, 4, 5, 6]
    stencilNormals := [1, 0, 1, 0, 1, 0]
    stencilSegmentCount := 1 }

end Fixtures

/-- `NORMAL_ARROWHEAD_ANGLE = Math.PI * 5.0 / 6.0` from the source, as a
real number (the source evaluates it with IEEE doubles; the claims' closed
forms are exact real arithmetic). -/
noncomputable def NORMAL_ARROWHEAD_ANGLE : ℝ := Real.pi * 5 / 6

section YFlipDefs

variable {K : Type} [Field K]

/-- Y-flip on one drawing operation: negates every Y coordinate appearing in
a geometric operation and leaves non-geometric operations unchanged.
Modelled from the spec: "the rendered Y-coordinate equals the negation of
the mesh's Y-coordinate". -/
def flipOp : DrawOp K → DrawOp K
  | DrawOp.clearRect x y w h => DrawOp.clearRect x y w h
  | DrawOp.save => DrawOp.save
  | DrawOp.restore => DrawOp.restore
  | DrawOp.translate x y => DrawOp.translate x y
  | DrawOp.scale x y => DrawOp.scale x y
  | DrawOp.setFont f => DrawOp.setFont f
  | DrawOp.setLineWidth w => DrawOp.setLineWidth w
  | DrawOp.setStrokeStyle s => DrawOp.setStrokeStyle s
  | DrawOp.setFillStyle s => DrawOp.setFillStyle s
  | DrawOp.setLineDash a b => DrawOp.setLineDash a b
  | DrawOp.beginPath => DrawOp.beginPath
  | DrawOp.moveTo x y => DrawOp.moveTo x (-y)
  | DrawOp.lineTo x y => DrawOp.lineTo x (-y)
  | DrawOp.quadraticCurveTo cpx cpy x y => DrawOp.quadraticCurveTo cpx (-cpy) x (-y)
  | DrawOp.arc x y radius startAngle endAngle => DrawOp.arc x (-y) radius startAngle endAngle
  | DrawOp.stroke => DrawOp.stroke
  | DrawOp.fill => DrawOp.fill

/-- Plane rotation by the angle with cosine `cosA` and sine `sinA`. -/
def rotate (cosA sinA : K) (v : K × K) : K × K :=
  (cosA * v.1 - sinA * v.2, sinA * v.1 + cosA * v.2)

/-- Mesh-space counterpart of `drawVertexIfNecessary`: the dot is drawn at
the buffer point itself. -/
def drawVertexIfNecessaryMesh (E : NumEnv K) (position : K × K) (invScaleFactor : K) :
    List (DrawOp K) :=
  [DrawOp.beginPath,
   DrawOp.moveTo position.1 position.2,
   DrawOp.arc position.1 position.2 (POINT_RADIUS * invScaleFactor) 0 (2 * E.pi),
   DrawOp.fill]

/-- Mesh-space counterpart of `drawSegmentVertex`. -/
def drawSegmentVertexMesh (E : NumEnv K) (position : K × K) (invScaleFactor : K) :
    List (DrawOp K) :=
  [DrawOp.save,
   DrawOp.setFillStyle SEGMENT_POINT_FILL_STYLE,
   DrawOp.setLineWidth (invScaleFactor * SEGMENT_STROKE_WIDTH),
   DrawOp.beginPath,
   DrawOp.arc position.1 position.2 (SEGMENT_POINT_RADIUS * invScaleFactor) 0 (2 * E.pi),
   DrawOp.fill,
   DrawOp.restore]

/-- Mesh-space counterpart of `drawSegmentControlPoint`. -/
def drawSegmentControlPointMesh (E : NumEnv K) (position : K × K) (invScaleFactor : K) :
    List (DrawOp K) :=
  [DrawOp.save,
   DrawOp.setStrokeStyle SEGMENT_CONTROL_POINT_STROKE_STYLE,
   DrawOp.setFillStyle SEGMENT_CONTROL_POINT_FILL_STYLE,
   DrawOp.setLineWidth (invScaleFactor * SEGMENT_CONTROL_POINT_STROKE_WIDTH),
   DrawOp.beginPath,
   DrawOp.arc position.1 position.2 (SEGMENT_POINT_RADIUS * invScaleFactor) 0 (2 * E.pi),
   DrawOp.fill,
   DrawOp.stroke,
   DrawOp.restore]

/-- Mesh-space counterpart of `drawNormal`, following the spec: the shaft
endpoint is the anchor plus shaft length times the normal, and each wing is
the endpoint plus the arrowhead length times the normal rotated by the
arrowhead angle (one wing per rotation direction). -/
def drawNormalMesh (E : NumEnv K) (position normalVector : K × K) (invScaleFactor : K)
    (normalType : NormalType) : List (DrawOp K) :=
  let length := invScaleFactor * NORMAL_LENGTHS normalType
  let arrowheadLength := invScaleFactor * NORMAL_ARROWHEAD_LENGTH
  let endpoint : K × K := (position.1 + length * normalVector.1,
                           position.2 + length * normalVector.2)
  let wing1 := rotate E.cosArrow (-E.sinArrow) normalVector
  let wing2 := rotate E.cosArrow E.sinArrow normalVector
  [DrawOp.save,
   DrawOp.setStrokeStyle (NORMAL_STROKE_STYLES normalType),
   DrawOp.beginPath,
   DrawOp.moveTo position.1 position.2,
   DrawOp.lineTo endpoint.1 endpoint.2,
   DrawOp.lineTo (endpoint.1 + arrowheadLength * wing1.1)
     (endpoint.2 + arrowheadLength * wing1.2),
   DrawOp.stroke,
   DrawOp.beginPath,
   DrawOp.moveTo endpoint.1 endpoint.2,
   DrawOp.lineTo (endpoint.1 + arrowheadLength * wing2.1)
     (endpoint.2 + arrowheadLength * wing2.2),
   DrawOp.stroke,
   DrawOp.restore]

/-- Mesh-space counterpart of the `drawSegmentVertices` loop. -/
def drawSegmentVerticesMesh (E : NumEnv K) (segments normals : List K) (segmentCount : Nat)
    (endpointOffsets : List Nat) (controlPointOffset : Option Nat) (segmentSize : Nat)
    (invScaleFactor : K) (drawControl drawNormals drawSegments : Bool) :
    List (DrawOp K) :=
  (List.range segmentCount).flatMap fun segmentIndex =>
    let positionStartOffset := segmentSize * 2 * segmentIndex
    let normalStartOffset := segmentSize * 2 * segmentIndex
    let e0 := endpointOffsets.getD 0 0
    let e1 := endpointOffsets.getD 1 0
    let position0 : K × K :=
      (segments.getD (positionStartOffset + e0 * 2 + 0) 0,
       segments.getD (positionStartOffset + e0 * 2 + 1) 0)
    let position1 : K × K :=
      (segments.getD (positionStartOffset + e1 * 2 + 0) 0,
       segments.getD (positionStartOffset + e1 * 2 + 1) 0)
    let controlPoint : Option (K × K) :=
      controlPointOffset.map fun c =>
        (segments.getD (positionStartOffset + c * 2 + 0) 0,
         segments.getD (positionStartOffset + c * 2 + 1) 0)
    let normal0 : K × K :=
      (normals.getD (normalStartOffset + e0 * 2 + 0) 0,
       normals.getD (normalStartOffset + e0 * 2 + 1) 0)
    let normal1 : K × K :=
      (normals.getD (normalStartOffset + e1 * 2 + 0) 0,
       normals.getD (normalStartOffset + e1 * 2 + 1) 0)
    let normalControlPoint : Option (K × K) :=
      controlPointOffset.map fun c =>
        (normals.getD (normalStartOffset + c * 2 + 0) 0,
         normals.getD (normalStartOffset + c * 2 + 1) 0)
    (if drawNormals then
        drawNormalMesh E position0 normal0 invScaleFactor NormalType.edge ++
        drawNormalMesh E position1 normal1 invScaleFactor NormalType.edge ++
        (match drawControl, controlPoint, normalControlPoint with
         | true, some cp, some ncp => drawNormalMesh E cp ncp invScaleFactor NormalType.edge
         | _, _, _ => [])
      else []) ++
    drawSegmentVertexMesh E position0 invScaleFactor ++
    drawSegmentVertexMesh E position1 invScaleFactor ++
    (match drawControl, controlPoint with
     | true, some cp =>
        [DrawOp.save,
         DrawOp.setStrokeStyle SEGMENT_CONTROL_POINT_HULL_STROKE_STYLE,
         DrawOp.setLineDash (2 * invScaleFactor) (2 * invScaleFactor),
         DrawOp.beginPath,
         DrawOp.moveTo position0.1 position0.2,
         DrawOp.lineTo cp.1 cp.2,
         DrawOp.lineTo position1.1 position1.2,
         DrawOp.stroke,
         DrawOp.restore] ++
        drawSegmentControlPointMesh E cp invScaleFactor
     | _, _ => []) ++
    (if drawSegments then
        [DrawOp.save,
         DrawOp.setStrokeStyle SEGMENT_LINE_STROKE_STYLE,
         DrawOp.beginPath,
         DrawOp.moveTo position0.1 position0.2,
         DrawOp.lineTo position1.1 position1.2,
         DrawOp.stroke,
         DrawOp.restore]
      else [])

/-- Mesh-space counterpart of the B-quad loop body. -/
def bQuadOpsMesh (E : NumEnv K) (bQuadVertexPositions : List K) (drawVertices : Bool)
    (invScaleFactor : K) (bQuadIndex : Nat) : List (DrawOp K) :=
  let upperLeftPosition := readPoint bQuadVertexPositions bQuadIndex 0
  let upperControlPointPosition := getPosition bQuadVertexPositions bQuadIndex 1
  let upperRightPosition := readPoint bQuadVertexPositions bQuadIndex 2
  let lowerRightPosition := readPoint bQuadVertexPositions bQuadIndex 3
  let lowerControlPointPosition := getPosition bQuadVertexPositions bQuadIndex 4
  let lowerLeftPosition := readPoint bQuadVertexPositions bQuadIndex 5
  (if drawVertices then
      drawVertexIfNecessaryMesh E upperLeftPosition invScaleFactor ++
      drawVertexIfNecessaryMesh E upperRightPosition invScaleFactor ++
      drawVertexIfNecessaryMesh E lowerLeftPosition invScaleFactor ++
      drawVertexIfNecessaryMesh E lowerRightPosition invScaleFactor
    else []) ++
  ([DrawOp.beginPath, DrawOp.moveTo upperLeftPosition.1 upperLeftPosition.2] ++
   (match upperControlPointPosition with
    | some cp =>
        [DrawOp.setStrokeStyle CURVE_STROKE_STYLE,
         DrawOp.quadraticCurveTo cp.1 cp.2 upperRightPosition.1 upperRightPosition.2]
    | none =>
        [DrawOp.setStrokeStyle LINE_STROKE_STYLE,
         DrawOp.lineTo upperRightPosition.1 upperRightPosition.2]) ++
   [DrawOp.stroke]) ++
  [DrawOp.setStrokeStyle LIGHT_STROKE_STYLE,
   DrawOp.beginPath,
   DrawOp.moveTo upperRightPosition.1 upperRightPosition.2,
   DrawOp.lineTo lowerRightPosition.1 lowerRightPosition.2,
   DrawOp.stroke] ++
  ([DrawOp.beginPath, DrawOp.moveTo lowerRightPosition.1 lowerRightPosition.2] ++
   (match lowerControlPointPosition with
    | some cp =>
        [DrawOp.setStrokeStyle CURVE_STROKE_STYLE,
         DrawOp.quadraticCurveTo cp.1 cp.2 lowerLeftPosition.1 lowerLeftPosition.2]
    | none =>
        [DrawOp.setStrokeStyle LINE_STROKE_STYLE,
         DrawOp.lineTo lowerLeftPosition.1 lowerLeftPosition.2]) ++
   [DrawOp.stroke]) ++
  [DrawOp.setStrokeStyle LIGHT_STROKE_STYLE,
   DrawOp.beginPath,
   DrawOp.moveTo lowerLeftPosition.1 lowerLeftPosition.2,
   DrawOp.lineTo upperLeftPosition.1 upperLeftPosition.2,
   DrawOp.stroke]

/-- Mesh-space counterpart of the body of `redraw` (everything between the
prologue and the final `restore`). -/
def redrawBodyMesh (E : NumEnv K) (st : OverlayState) (m : Mesh K) (invScaleFactor : K) :
    List (DrawOp K) :=
  ((List.range m.bQuadVertexPositionCount).flatMap fun bQuadIndex =>
    bQuadOpsMesh E m.bQuadVertexPositions st.drawVertices invScaleFactor bQuadIndex) ++
  (if st.drawVertices then
      drawSegmentVerticesMesh E m.stencilSegments m.stencilNormals m.stencilSegmentCount
        [0, 2] (some 1) 3 invScaleFactor st.drawControl st.drawNormals st.drawSegments
    else [])

end YFlipDefs

section HelperTheorems

variable {K : Type} [Field K]

/-- A B-quad's operations split into its conditional corner dots followed by
its unconditional edge and connecting strokes. -/
theorem bQuadOps_decomp (E : NumEnv K) (positions : List K) (drawVertices : Bool)
    (invScaleFactor : K) (bQuadIndex : Nat) :
    bQuadOps E positions drawVertices invScaleFactor bQuadIndex =
      (if drawVertices then bQuadDotOps E positions invScaleFactor bQuadIndex else []) ++
      bQuadStrokeOps E positions invScaleFactor bQuadIndex := by
  cases drawVertices <;>
    simp [bQuadOps, bQuadDotOps, bQuadStrokeOps, List.append_assoc]

/-- A corner dot is the Y-flip of its mesh-space counterpart. -/
theorem drawVertexIfNecessary_flip (E : NumEnv K) (p : K × K) (inv : K) :
    drawVertexIfNecessary E p inv = List.map flipOp (drawVertexIfNecessaryMesh E p inv) :=
  rfl

/-- A segment endpoint marker is the Y-flip of its mesh-space counterpart. -/
theorem drawSegmentVertex_flip (E : NumEnv K) (p : K × K) (inv : K) :
    drawSegmentVertex E p inv = List.map flipOp (drawSegmentVertexMesh E p inv) :=
  rfl

/-- A segment control-point marker is the Y-flip of its mesh-space
counterpart. -/
theorem drawSegmentControlPoint_flip (E : NumEnv K) (p : K × K) (inv : K) :
    drawSegmentControlPoint E p inv = List.map flipOp (drawSegmentControlPointMesh E p inv) :=
  rfl

/-- A normal arrow is the Y-flip of its mesh-space counterpart. -/
theorem drawNormal_flip (E : NumEnv K) (p n : K × K) (inv : K) (t : NormalType) :
    drawNormal E p n inv t = List.map flipOp (drawNormalMesh E p n inv t) := by
  simp only [drawNormal, drawNormalMesh, rotate, List.map_cons, List.map_nil, flipOp,
    List.cons.injEq, DrawOp.moveTo.injEq, DrawOp.lineTo.injEq, and_true, true_and]
  repeat' apply And.intro
  all_goals first | rfl | ring

/-- The segment pass is the Y-flip of its mesh-space counterpart. -/
theorem drawSegmentVertices_flip (E : NumEnv K) (segments normals : List K)
    (segmentCount : Nat) (endpointOffsets : List Nat) (controlPointOffset : Option Nat)
    (segmentSize : Nat) (inv : K) (dc dn ds : Bool) :
    drawSegmentVertices E segments normals segmentCount endpointOffsets controlPointOffset
        segmentSize inv dc dn ds =
      List.map flipOp (drawSegmentVerticesMesh E segments normals segmentCount
        endpointOffsets controlPointOffset segmentSize inv dc dn ds) := by
  unfold drawSegmentVertices drawSegmentVerticesMesh
  rw [List.map_flatMap]
  refine congrArg _ (funext fun segmentIndex => ?_)
  cases controlPointOffset <;> cases dc <;> cases dn <;> cases ds <;>
    simp [drawNormal_flip, drawSegmentVertex_flip, drawSegmentControlPoint_flip,
      List.map_append, flipOp]

/-- The B-quad loop body is the Y-flip of its mesh-space counterpart. -/
theorem bQuadOps_flip (E : NumEnv K) (positions : List K) (b : Bool) (inv : K) (i : Nat) :
    bQuadOps E positions b inv i = List.map flipOp (bQuadOpsMesh E positions b inv i) := by
  cases b <;>
    simp [bQuadOps, bQuadOpsMesh, getPosition, drawVertexIfNecessary_flip,
      List.map_append, flipOp]

end HelperTheorems

section KeyTheorems

/-- C5: pressing `r` sets `drawControl`, `drawNormals` and `drawVertices` to
`true` and leaves `drawSegments` at its prior value, for every prior overlay
state (hence for `drawSegments` initially `true` and initially `false`). -/
theorem reset_key_sets_triple_preserves_segments (s : OverlayState) :
    onKeyPress "r" s =
      ({ drawControl := true, drawNormals := true, drawVertices := true,
         drawSegments := s.drawSegments }, true) := by
  simp [onKeyPress]

/-- C10: each of the keys `c`, `n`, `v` toggles exactly one overlay flag and
leaves the other three unchanged, and pressing the same key twice restores
the overlay state (each toggle is an involution). -/
theorem toggle_keys_involution (s : OverlayState) :
    (onKeyPress "c" s).1 = { s with drawControl := !s.drawControl } ∧
    (onKeyPress "n" s).1 = { s with drawNormals := !s.drawNormals } ∧
    (onKeyPress "v" s).1 = { s with drawVertices := !s.drawVertices } ∧
    (onKeyPress "c" (onKeyPress "c" s).1).1 = s ∧
    (onKeyPress "n" (onKeyPress "n" s).1).1 = s ∧
    (onKeyPress "v" (onKeyPress "v" s).1).1 = s := by
  refine ⟨?_, ?_, ?_, ?_, ?_, ?_⟩ <;> simp [onKeyPress]

/-- C3 counterexample: the unknown key `x` leaves the overlay state
unchanged, yet the handler still calls `setDirty()` (the `setDirty` call in
the source stands outside the key dispatch chain), so a redraw request is
not issued exactly for state-changing key events. -/
theorem unknown_key_still_sets_dirty_cx :
    (onKeyPress "x" initialOverlayState).1 = initialOverlayState ∧
    (onKeyPress "x" initialOverlayState).2 = true := by
  decide

/-- C3 amended: a key outside `c`, `n`, `v`, `r` leaves the overlay state
unchanged, but a redraw request is issued on every key press, including
presses that change nothing. -/
theorem onKeyPress_unknown_key_state_and_dirty (key : String) (s : OverlayState) :
    (key ∉ (["c", "n", "v", "r"] : List String) → (onKeyPress key s).1 = s) ∧
    (onKeyPress key s).2 = true := by
  constructor
  · intro h
    simp only [List.mem_cons, List.not_mem_nil, or_false, not_or] at h
    obtain ⟨hc, hn, hv, hr⟩ := h
    simp [onKeyPress, hc, hn, hv, hr]
  · rfl

/-- Witness for the amended C3 theorem at the concrete key `x`. -/
theorem onKeyPress_unknown_key_state_and_dirty_witness :
    ("x" ∉ (["c", "n", "v", "r"] : List String)) ∧
    (onKeyPress "x" initialOverlayState).1 = initialOverlayState ∧
    (onKeyPress "x" initialOverlayState).2 = true :=
  ⟨by decide,
   (onKeyPress_unknown_key_state_and_dirty "x" initialOverlayState).1 (by decide),
   (onKeyPress_unknown_key_state_and_dirty "x" initialOverlayState).2⟩

end KeyTheorems

section RedrawTheorems

variable {K : Type} [Field K]

/-- C8: with no mesh attached, `redraw` emits no drawing-surface operation at
all; with a mesh attached, the very first emitted operation is the
`clearRect` over the whole canvas, before any drawing primitive. -/
theorem redraw_no_mesh_noop_and_clear_first (E : NumEnv K) (canvasWidth canvasHeight : K)
    (camera : Camera K) (dpr : K) (st : OverlayState) :
    redraw E canvasWidth canvasHeight camera dpr st none = [] ∧
    ∀ m : Mesh K,
      (redraw E canvasWidth canvasHeight camera dpr st (some m)).head? =
        some (DrawOp.clearRect 0 0 canvasWidth canvasHeight) := by
  exact ⟨rfl, fun m => rfl⟩

/-- C9: `redraw` is deterministic: equal numeric environment (device pixel
ratio enters through `dpr`), canvas size, camera, overlay state and mesh
yield identical operation traces. -/
theorem redraw_deterministic (E E2 : NumEnv K) (w w2 h h2 : K) (cam cam2 : Camera K)
    (dpr dpr2 : K) (st st2 : OverlayState) (m m2 : Option (Mesh K))
    (hE : E = E2) (hw : w = w2) (hh : h = h2) (hcam : cam = cam2) (hdpr : dpr = dpr2)
    (hst : st = st2) (hm : m = m2) :
    redraw E w h cam dpr st m = redraw E2 w2 h2 cam2 dpr2 st2 m2 := by
  subst hE hw hh hcam hdpr hst hm
  rfl

end RedrawTheorems

/-- Witness for C9 at a concrete rational input. -/
theorem redraw_deterministic_witness :
    redraw testEnv 100 100 testCamera 1 initialOverlayState (some testMesh) =
      redraw testEnv 100 100 testCamera 1 initialOverlayState (some testMesh) :=
  redraw_deterministic testEnv testEnv 100 100 100 100 testCamera testCamera 1 1
    initialOverlayState initialOverlayState (some testMesh) (some testMesh)
    rfl rfl rfl rfl rfl rfl rfl

section ToggleTheorems

variable {K : Type} [Field K]

/-- C1 counterexample: on a mesh with zero B-quads (hence zero corner-dot
draw calls) and one stencil segment, with all other toggles on, turning
`drawVertices` off changes the emitted trace — because the whole segment
pass (`drawSegmentVertices`, source line 340) is gated on `drawVertices` —
so the toggle does not remove only corner dots. -/
theorem drawVertices_toggle_not_isolated_cx :
    redraw testEnv 100 100 testCamera 1
        { drawControl := true, drawNormals := true, drawVertices := false,
          drawSegments := true } (some testMesh) ≠
      redraw testEnv 100 100 testCamera 1
        { drawControl := true, drawNormals := true, drawVertices := true,
          drawSegments := true } (some testMesh) := by
  intro h
  have hoff : (redraw testEnv 100 100 testCamera 1
      { drawControl := true, drawNormals := true, drawVertices := false,
        drawSegments := true } (some testMesh)).length = 7 := rfl
  have hon : (redraw testEnv 100 100 testCamera 1
      { drawControl := true, drawNormals := true, drawVertices := true,
        drawSegments := true } (some testMesh)).length = 82 := rfl
  have hlen := congrArg List.length h
  rw [hoff, hon] at hlen
  exact absurd hlen (by decide)

/-- C1 amended: turning `drawVertices` off removes the B-quad corner-dot
draw calls and also suppresses the entire segment pass (endpoint markers,
normal arrows, control-point hulls and raw segment chords); the B-quad edge
and connecting strokes are emitted unchanged. -/
theorem drawVertices_off_trace_decomposition (E : NumEnv K) (w h : K) (cam : Camera K)
    (dpr : K) (st : OverlayState) (m : Mesh K) :
    redraw E w h cam dpr { st with drawVertices := false } (some m) =
      redrawPrologue w h cam (dpr / cam.scale) ++
      ((List.range m.bQuadVertexPositionCount).flatMap fun i =>
        bQuadStrokeOps E m.bQuadVertexPositions (dpr / cam.scale) i) ++
      [DrawOp.restore] ∧
    redraw E w h cam dpr { st with drawVertices := true } (some m) =
      redrawPrologue w h cam (dpr / cam.scale) ++
      ((List.range m.bQuadVertexPositionCount).flatMap fun i =>
        bQuadDotOps E m.bQuadVertexPositions (dpr / cam.scale) i ++
        bQuadStrokeOps E m.bQuadVertexPositions (dpr / cam.scale) i) ++
      drawSegmentVertices E m.stencilSegments m.stencilNormals m.stencilSegmentCount
        [0, 2] (some 1) 3 (dpr / cam.scale) st.drawControl st.drawNormals st.drawSegments ++
      [DrawOp.restore] := by
  constructor
  · simp [redraw, bQuadStrokeOps]
  · simp [redraw, bQuadOps_decomp, List.append_assoc]

/-- C2: `getPosition` wraps every buffer read in `glmatrix.vec2.clone` and
therefore never reports an absent control point; consequently every B-quad
edge is stroked as a quadratic curve in the curve color, and the
straight-line branch with the line color is unreachable for every buffer
content — including buffers holding the mesh format's missing-control-point
sentinel. -/
theorem bQuad_edges_always_curve (E : NumEnv K) (positions : List K) (drawVertices : Bool)
    (invScaleFactor : K) (bQuadIndex : Nat) :
    (∀ i v : Nat, getPosition positions i v ≠ none) ∧
    DrawOp.setStrokeStyle LINE_STROKE_STYLE ∉
      bQuadOps E positions drawVertices invScaleFactor bQuadIndex ∧
    countQuadCurves (bQuadOps E positions drawVertices invScaleFactor bQuadIndex) = 2 := by
  refine ⟨fun i v => by simp [getPosition], ?_, ?_⟩
  · cases drawVertices <;>
      simp [bQuadOps, getPosition, drawVertexIfNecessary, LINE_STROKE_STYLE,
        CURVE_STROKE_STYLE, LIGHT_STROKE_STYLE]
  · cases drawVertices <;> rfl

end ToggleTheorems

section ArrowTheorems

variable {K : Type} [Field K]

/-- C4 counterexample: at a concrete input, `drawNormal` issues two `stroke`
operations, not three — the shaft and the first arrowhead wing share one
path. -/
theorem drawNormal_two_strokes_cx :
    countStrokes (drawNormal testEnv (0, 0) (1, 0) 1 NormalType.edge) = 2 ∧
    countStrokes (drawNormal testEnv (0, 0) (1, 0) 1 NormalType.edge) ≠ 3 := by
  decide

/-- C4 amended: every `drawNormal` call draws the arrow with exactly two
stroke operations: one path holding the shaft together with the first
arrowhead wing, and a second path holding the second wing. -/
theorem drawNormal_stroke_count_two (E : NumEnv K) (position normalVector : K × K)
    (invScaleFactor : K) (normalType : NormalType) :
    countStrokes (drawNormal E position normalVector invScaleFactor normalType) = 2 := by
  rfl

end ArrowTheorems

/-- C7: for anchor `(0, 0)`, normal `(1, 0)`, normal type `edge` (shaft
length 14) and `invScaleFactor = 1`, the shaft endpoint is `(14, 0)` and
each arrowhead wing endpoint is the shaft endpoint plus `4` times the shaft
direction rotated by `+5π/6` respectively `-5π/6`; analytically the rotated
direction is `(-√3/2, ±1/2)`. -/
theorem drawNormal_edge_arrow_geometry :
    drawNormal
        { pi := Real.pi, cosArrow := Real.cos NORMAL_ARROWHEAD_ANGLE,
          sinArrow := Real.sin NORMAL_ARROWHEAD_ANGLE }
        ((0 : ℝ), 0) (1, 0) 1 NormalType.edge =
      [DrawOp.save,
       DrawOp.setStrokeStyle (NORMAL_STROKE_STYLES NormalType.edge),
       DrawOp.beginPath,
       DrawOp.moveTo 0 0,
       DrawOp.lineTo 14 0,
       DrawOp.lineTo (14 + 4 * Real.cos NORMAL_ARROWHEAD_ANGLE)
         (0 + 4 * Real.sin NORMAL_ARROWHEAD_ANGLE),
       DrawOp.stroke,
       DrawOp.beginPath,
       DrawOp.moveTo 14 0,
       DrawOp.lineTo (14 + 4 * Real.cos (-NORMAL_ARROWHEAD_ANGLE))
         (0 + 4 * Real.sin (-NORMAL_ARROWHEAD_ANGLE)),
       DrawOp.stroke,
       DrawOp.restore] ∧
    Real.cos NORMAL_ARROWHEAD_ANGLE = -(Real.sqrt 3 / 2) ∧
    Real.sin NORMAL_ARROWHEAD_ANGLE = 1 / 2 := by
  have hangle : NORMAL_ARROWHEAD_ANGLE = Real.pi - Real.pi / 6 := by
    unfold NORMAL_ARROWHEAD_ANGLE
    ring
  refine ⟨?_, ?_, ?_⟩
  · simp only [drawNormal, NORMAL_LENGTHS, NORMAL_ARROWHEAD_LENGTH, Real.cos_neg,
      Real.sin_neg, List.cons.injEq, DrawOp.moveTo.injEq, DrawOp.lineTo.injEq, and_true,
      true_and]
    norm_num
  · rw [hangle, Real.cos_pi_sub, Real.cos_pi_div_six]
  · rw [hangle, Real.sin_pi_sub, Real.sin_pi_div_six]

section YFlipTheorems

variable {K : Type} [Field K]

/-- C6: every drawing operation `redraw` emits between its prologue and the
final `restore` — corner dots, edges, connecting strokes, segment markers,
hulls, arrows and chords — is the Y-flip of the corresponding mesh-space
operation: the rendered Y-coordinate is the negation of the mesh
Y-coordinate, on both the B-quad and the segment rendering paths. -/
theorem redraw_y_flip_refinement (E : NumEnv K) (w h : K) (cam : Camera K) (dpr : K)
    (st : OverlayState) (m : Mesh K) :
    redraw E w h cam dpr st (some m) =
      redrawPrologue w h cam (dpr / cam.scale) ++
      List.map flipOp (redrawBodyMesh E st m (dpr / cam.scale)) ++ [DrawOp.restore] := by
  simp only [redraw, redrawBodyMesh, List.map_append, List.map_flatMap]
  simp only [bQuadOps_flip, drawSegmentVertices_flip]
  cases hv : st.drawVertices <;> simp [List.append_assoc]

end YFlipTheorems

end MeshDebugger
